import Mathlib

/-!
# The scheduler of discord-reminder-bot

A shallow embedding of `scheduler.go`: the reminder records, the store query
issued by the polling loop, the goroutine started by
`OneShotReminder.ScheduleSend` and the loop of `Scheduler.Run`.

Instants and durations are integers counting nanoseconds.  Everything the
code does to the outside (log lines, store queries, goroutines, calls of a
dispatcher) is appended to a trace kept in the `World`, next to the store.
The choices the Go runtime makes (which `select` case fires, what the clock
reads, whether the store connection fails) are inputs of the model.
-/

namespace DiscordReminderBot

/-! ## Time -/

/-- Instants (`time.Time`), in nanoseconds since the epoch. -/
abbrev Time := Int

/-- Durations (`time.Duration`), an int64 count of nanoseconds. -/
abbrev Duration := Int

/-- Largest `time.Duration`. -/
def maxDuration : Duration := 2 ^ 63 - 1

/-- Smallest `time.Duration`. -/
def minDuration : Duration := -(2 ^ 63)

/-- Two's complement reduction of an integer to int64. -/
def wrapInt64 (x : Int) : Int := (x + 2 ^ 63) % 2 ^ 64 - 2 ^ 63

/-- The constant `time.Millisecond`. -/
def Millisecond : Duration := 1000000

/-- Go's `+` on two `time.Duration` values: int64 addition, wrapping. -/
def durationAdd (a b : Duration) : Duration := wrapInt64 (a + b)

/-- `t.Add(d)`. -/
def timeAdd (t : Time) (d : Duration) : Time := t + d

/-- `t.Sub(u)`: the difference, saturated to the range of `time.Duration`. -/
def timeSub (t u : Time) : Duration := max minDuration (min maxDuration (t - u))

/-- `time.Until(t)` evaluated when the clock reads `now`. -/
def timeUntil (now t : Time) : Duration := timeSub t now

/-! ## Data model -/

/-- A Message represents the contents of a Reminder. -/
structure Message where
  ChannelID : String
  PingUserIDs : List String
  FromUserID : String
  Name : String
  Description : String
deriving DecidableEq, Repr

/-- The embedded `gorm.Model`: primary key and record timestamps; a record
whose `DeletedAt` is set is soft-deleted. -/
structure GormModel where
  ID : Nat
  CreatedAt : Time
  UpdatedAt : Time
  DeletedAt : Option Time
deriving DecidableEq, Repr

/-- A OneShotReminder is only sent once. -/
structure OneShotReminder extends GormModel where
  Occurrence : Time
  Message : DiscordReminderBot.Message
deriving DecidableEq, Repr

/-- A reminder that fires repeatedly, on a cron expression. -/
structure RepeatReminder extends GormModel where
  NextOcurrence : Time
  CronExpression : String
  Message : DiscordReminderBot.Message
deriving DecidableEq, Repr

/-- Go `error` values the scheduler handles: the two errors of package
`context` and errors reported by the store. -/
inductive Error where
  | Canceled
  | DeadlineExceeded
  | db (msg : String)
deriving DecidableEq, Repr

/-- A `context.Context` as the scheduler sees it: the instant at which its
`Done` channel is closed (if ever) and the error `Err()` reports from then
on. -/
structure Context where
  doneAt : Option Time
  err : Error
deriving DecidableEq, Repr

/-- Levels of the zap logger used by the file. -/
inductive Level where
  | info
  | warn
  | error
deriving DecidableEq, Repr

/-- What the code does to the outside world. -/
inductive Effect where
  /-- A line written through `sugar`. -/
  | log (level : Level) (msg : String)
  /-- A `Where(column < ?, arg).Find` sent to the store. -/
  | query (table : String) (column : String) (arg : Time)
  /-- A goroutine started by `ScheduleSend` for a reminder. -/
  | go (r : OneShotReminder)
  /-- A call of a dispatcher, at instant `t`, with message `m`. -/
  | dispatch (t : Time) (m : Message)
deriving DecidableEq, Repr

/-! ## The store -/

/-- A table of the store: its rows and, by name, the time-valued columns a
`column < ?` condition can refer to. -/
structure Table (α : Type) where
  column : String → Option (α → Time)
  rows : List α

/-- The database handle `*gorm.DB`: one table per reminder kind. -/
structure DB where
  oneShotReminders : Table OneShotReminder
  repeatReminders : Table RepeatReminder

/-- The SQL comparison `column < ?` on a column value and the bound
argument. -/
def whereLt (value arg : Time) : Bool := decide (value < arg)

/-- The call `db.Where(column ++ " < ?", arg).Find(&dest)` on a table:
`io` is the failure of the connection, if any; a column the table does not
have is an error of the statement; rows that are soft-deleted are left
out. -/
def Table.Find {α : Type} (t : Table α) (deletedAt : α → Option Time)
    (column : String) (arg : Time) (io : Option Error) : Except Error (List α) :=
  match io with
  | some e => .error e
  | none =>
    match t.column column with
    | none => .error (.db ("no such column: " ++ column))
    | some col => .ok (t.rows.filter fun r => (deletedAt r).isNone && whereLt (col r) arg)

/-- Columns of the table gorm derives from `OneShotReminder` (field names in
snake case). -/
def oneShotColumns : String → Option (OneShotReminder → Time)
  | "created_at" => some fun r => r.CreatedAt
  | "updated_at" => some fun r => r.UpdatedAt
  | "occurrence" => some fun r => r.Occurrence
  | _ => none

/-- Columns of the table gorm derives from `RepeatReminder`. -/
def repeatColumns : String → Option (RepeatReminder → Time)
  | "created_at" => some fun r => r.CreatedAt
  | "updated_at" => some fun r => r.UpdatedAt
  | "next_ocurrence" => some fun r => r.NextOcurrence
  | _ => none

/-- A store whose tables were created by gorm from the two structs. -/
def gormDB (oneShot : List OneShotReminder) (repeats : List RepeatReminder) : DB :=
  { oneShotReminders := { column := oneShotColumns, rows := oneShot }
    repeatReminders := { column := repeatColumns, rows := repeats } }

/-- A store whose tables name the activation column `ocurrence`, the way the
queries of `Run` spell it. -/
def ocurrenceDB (oneShot : List OneShotReminder) (repeats : List RepeatReminder) : DB :=
  { oneShotReminders :=
      { column := fun c => if c = "ocurrence" then some fun r => r.Occurrence else none
        rows := oneShot }
    repeatReminders :=
      { column := fun c => if c = "ocurrence" then some fun r => r.NextOcurrence else none
        rows := repeats } }

/-! ## The world -/

/-- The store together with the trace of effects so far. -/
structure World where
  db : DB
  trace : List Effect

/-- Append one effect to the trace. -/
def World.emit (w : World) (e : Effect) : World := { w with trace := w.trace ++ [e] }

/-- A MessageDispatcherFunc takes a Message and sends it appropriately. -/
abbrev MessageDispatcherFunc := Context → Message → World → Option Error × World

/-- A dispatcher that succeeds and records its call, made at instant `t`. -/
def recordingDispatcher (t : Time) : MessageDispatcherFunc :=
  fun _ m w => (none, w.emit (.dispatch t m))

/-- The effects added to the trace between world `w` and a later `w'`. -/
def World.effectsSince (w w' : World) : List Effect := w'.trace.drop w.trace.length

/-- The dispatcher calls in a list of effects. -/
def dispatches (es : List Effect) : List (Time × Message) :=
  es.filterMap fun e => match e with
    | .dispatch t m => some (t, m)
    | _ => none

/-- The goroutines started in a list of effects. -/
def spawned (es : List Effect) : List OneShotReminder :=
  es.filterMap fun e => match e with
    | .go r => some r
    | _ => none

/-- The store queries in a list of effects. -/
def queries (es : List Effect) : List (String × String × Time) :=
  es.filterMap fun e => match e with
    | .query t c a => some (t, c, a)
    | _ => none

/-- A dispatch of message `m` made before instant `activation`. -/
def Effect.premature (m : Message) (activation : Time) : Effect → Bool
  | .dispatch t m' => decide (m' = m) && decide (t < activation)
  | _ => false

/-! ## OneShotReminder.ScheduleSend -/

/-- The cases of the `select` in the goroutine of `ScheduleSend`. -/
inductive SendCase where
  | ctxDone
  | timer
deriving DecidableEq, Repr

/-- The instant at which the channel of
`time.After(time.Until(r.Occurrence))` delivers, when the goroutine evaluates
it at instant `start`: at once for a duration that is not positive. -/
def OneShotReminder.fireAt (r : OneShotReminder) (start : Time) : Time :=
  timeAdd start (max 0 (timeUntil start r.Occurrence))

/-- The case the `select` of the goroutine takes: the channel that is ready
first; when both are ready at the same instant the runtime picks, `race`
telling whether it picks `ctx.Done()`. -/
def OneShotReminder.selected (r : OneShotReminder) (ctx : Context) (start : Time)
    (race : Bool) : SendCase :=
  match ctx.doneAt with
  | none => .timer
  | some c =>
    if max c start < r.fireAt start then .ctxDone
    else if r.fireAt start < max c start then .timer
    else if race then .ctxDone else .timer

/-- The body of the goroutine started by `ScheduleSend`. -/
def OneShotReminder.goroutine (r : OneShotReminder) (ctx : Context)
    (dispatcherFunc : MessageDispatcherFunc) (start : Time) (race : Bool) (w : World) : World :=
  match r.selected ctx start race with
  | .ctxDone => w.emit (.log .warn "context cancelled before one-shot reminder could be sent")
  | .timer => w

/-- The method `ScheduleSend`: starts the goroutine and returns. -/
def OneShotReminder.ScheduleSend (r : OneShotReminder) (ctx : Context)
    (dispatcherFunc : MessageDispatcherFunc) (w : World) : World :=
  w.emit (.go r)

/-- A call of `ScheduleSend` followed by the run of its goroutine. -/
def OneShotReminder.send (r : OneShotReminder) (ctx : Context)
    (dispatcherFunc : MessageDispatcherFunc) (start : Time) (race : Bool) (w : World) : World :=
  r.goroutine ctx dispatcherFunc start race (r.ScheduleSend ctx dispatcherFunc w)

/-! ## Scheduler.Run -/

/-- The scheduler.  Its field `db` is a pointer to the store: the store it
points to is the `db` of the `World` the methods run in. -/
structure Scheduler where
  pollEvery : Duration
deriving DecidableEq, Repr

/-- The constructor `NewScheduler`, the store being that of the `World`. -/
def NewScheduler (pollEvery : Duration) : Scheduler := { pollEvery := pollEvery }

/-- The value of `window := s.pollEvery + time.Millisecond`. -/
def Scheduler.window (s : Scheduler) : Duration := durationAdd s.pollEvery Millisecond

/-- The argument `time.Now().Add(window)` of a query, the clock reading
`now`. -/
def Scheduler.cutoff (s : Scheduler) (now : Time) : Time := timeAdd now s.window

/-- The first query of a cycle,
`s.db.Where("ocurrence < ?", time.Now().Add(window)).Find(&oneShotReminders)`. -/
def Scheduler.oneShotQuery (s : Scheduler) (w : World) (now₁ : Time) (io₁ : Option Error) :
    Except Error (List OneShotReminder) :=
  w.db.oneShotReminders.Find (fun r => r.DeletedAt) "ocurrence" (s.cutoff now₁) io₁

/-- The second query of a cycle, the same condition with `Find(&repeat)`: the
variable declared for its result is `repeatReminders`, so it is read as a
query on the table of repeat reminders. -/
def Scheduler.repeatQuery (s : Scheduler) (w : World) (now₂ : Time) (io₂ : Option Error) :
    Except Error (List RepeatReminder) :=
  w.db.repeatReminders.Find (fun r => r.DeletedAt) "ocurrence" (s.cutoff now₂) io₂

/-- What the `select` of the loop receives.  A tick carries what the clock
reads and whether the connection fails, for each of the two queries of the
cycle. -/
inductive Event where
  | ticker (now₁ : Time) (io₁ : Option Error) (now₂ : Time) (io₂ : Option Error)
  | ctxDone
deriving DecidableEq, Repr

/-- Where a run of the loop stands once the events are used up. -/
inductive Outcome where
  /-- Still waiting in the `select`. -/
  | blocked
  /-- `Run` has returned this `error` value. -/
  | returned (err : Option Error)
deriving DecidableEq, Repr

/-- The `for` loop of `Run`.  `time.Tick` returns a nil channel for a
duration that is not positive, and a context that is never cancelled never
closes `Done`: such a case is never ready. -/
def Scheduler.loop (s : Scheduler) (ctx : Context) : List Event → World → Outcome × World
  | [], w => (.blocked, w)
  | .ticker now₁ io₁ now₂ io₂ :: rest, w =>
    if s.pollEvery ≤ 0 then s.loop ctx rest w
    else
      let w₁ := w.emit (.query "one_shot_reminders" "ocurrence" (s.cutoff now₁))
      match s.oneShotQuery w₁ now₁ io₁ with
      | .error err =>
        (.returned (some err), w₁.emit (.log .error "failed to get one-shot reminders"))
      | .ok _oneShotReminders =>
        let w₂ := w₁.emit (.query "repeat_reminders" "ocurrence" (s.cutoff now₂))
        let _err := s.repeatQuery w₂ now₂ io₂
        s.loop ctx rest w₂
  | .ctxDone :: rest, w =>
    match ctx.doneAt with
    | none => s.loop ctx rest w
    | some _ =>
      (.returned (some ctx.err), w.emit (.log .info "context cancelled, shutting down scheduler"))

/-- The method `Run`. -/
def Scheduler.Run (s : Scheduler) (ctx : Context) (events : List Event) (w : World) :
    Outcome × World :=
  s.loop ctx events (w.emit (.log .info "starting scheduler"))

/-! ## Sample values -/

/-- A one-shot reminder due five seconds after the epoch. -/
def sampleOneShot : OneShotReminder :=
  { ID := 1, CreatedAt := 0, UpdatedAt := 0, DeletedAt := none
    Occurrence := 5000000000
    Message := ⟨"general", ["bob"], "alice", "standup", "daily standup"⟩ }

/-- A repeat reminder whose next occurrence is five seconds after the
epoch. -/
def sampleRepeat : RepeatReminder :=
  { ID := 2, CreatedAt := 0, UpdatedAt := 0, DeletedAt := none
    NextOcurrence := 5000000000
    CronExpression := "* * * * *"
    Message := ⟨"general", [], "alice", "tea", ""⟩ }

/-- A context that is never cancelled. -/
def background : Context := ⟨none, .Canceled⟩

/-! ## Auxiliary facts -/

theorem emit_db (w : World) (e : Effect) : (w.emit e).db = w.db := rfl

theorem emit_trace (w : World) (e : Effect) : (w.emit e).trace = w.trace ++ [e] := rfl

theorem effectsSince_of_append (w w' : World) (new : List Effect)
    (h : w'.trace = w.trace ++ new) : w.effectsSince w' = new := by
  simp [World.effectsSince, h]

theorem loop_nil (s : Scheduler) (ctx : Context) (w : World) :
    s.loop ctx [] w = (.blocked, w) := rfl

theorem loop_ticker_nil (s : Scheduler) (ctx : Context) (now₁ now₂ : Time)
    (io₁ io₂ : Option Error) (rest : List Event) (w : World) (hp : s.pollEvery ≤ 0) :
    s.loop ctx (.ticker now₁ io₁ now₂ io₂ :: rest) w = s.loop ctx rest w := by
  rw [Scheduler.loop, if_pos hp]

theorem loop_ticker_error (s : Scheduler) (ctx : Context) (now₁ now₂ : Time)
    (io₁ io₂ : Option Error) (rest : List Event) (w : World) (err : Error)
    (hp : ¬ s.pollEvery ≤ 0) (hq : s.oneShotQuery w now₁ io₁ = .error err) :
    s.loop ctx (.ticker now₁ io₁ now₂ io₂ :: rest) w =
      (.returned (some err),
        (w.emit (.query "one_shot_reminders" "ocurrence" (s.cutoff now₁))).emit
          (.log .error "failed to get one-shot reminders")) := by
  have hq' : s.oneShotQuery (w.emit (.query "one_shot_reminders" "ocurrence" (s.cutoff now₁)))
      now₁ io₁ = s.oneShotQuery w now₁ io₁ := rfl
  rw [Scheduler.loop, if_neg hp]
  simp only [hq', hq]

theorem loop_ticker_ok (s : Scheduler) (ctx : Context) (now₁ now₂ : Time)
    (io₁ io₂ : Option Error) (rest : List Event) (w : World) (rs : List OneShotReminder)
    (hp : ¬ s.pollEvery ≤ 0) (hq : s.oneShotQuery w now₁ io₁ = .ok rs) :
    s.loop ctx (.ticker now₁ io₁ now₂ io₂ :: rest) w =
      s.loop ctx rest
        ((w.emit (.query "one_shot_reminders" "ocurrence" (s.cutoff now₁))).emit
          (.query "repeat_reminders" "ocurrence" (s.cutoff now₂))) := by
  have hq' : s.oneShotQuery (w.emit (.query "one_shot_reminders" "ocurrence" (s.cutoff now₁)))
      now₁ io₁ = s.oneShotQuery w now₁ io₁ := rfl
  rw [Scheduler.loop, if_neg hp]
  simp only [hq', hq]

theorem loop_done_none (s : Scheduler) (ctx : Context) (rest : List Event) (w : World)
    (hd : ctx.doneAt = none) :
    s.loop ctx (.ctxDone :: rest) w = s.loop ctx rest w := by
  rw [Scheduler.loop, hd]

theorem loop_done_some (s : Scheduler) (ctx : Context) (rest : List Event) (w : World)
    (c : Time) (hd : ctx.doneAt = some c) :
    s.loop ctx (.ctxDone :: rest) w =
      (.returned (some ctx.err),
        w.emit (.log .info "context cancelled, shutting down scheduler")) := by
  rw [Scheduler.loop, hd]

/-- The loop never changes the store. -/
theorem loop_db (s : Scheduler) (ctx : Context) (evs : List Event) (w : World) :
    (s.loop ctx evs w).2.db = w.db := by
  induction evs generalizing w with
  | nil => rfl
  | cons ev rest ih =>
    cases ev with
    | ticker now₁ io₁ now₂ io₂ =>
      by_cases hp : s.pollEvery ≤ 0
      · rw [loop_ticker_nil s ctx now₁ now₂ io₁ io₂ rest w hp]; exact ih w
      · cases hq : s.oneShotQuery w now₁ io₁ with
        | error err => rw [loop_ticker_error s ctx now₁ now₂ io₁ io₂ rest w err hp hq]; rfl
        | ok rs => rw [loop_ticker_ok s ctx now₁ now₂ io₁ io₂ rest w rs hp hq, ih]; rfl
    | ctxDone =>
      cases hd : ctx.doneAt with
      | none => rw [loop_done_none s ctx rest w hd]; exact ih w
      | some c => rw [loop_done_some s ctx rest w c hd]; rfl

/-- The loop only appends to the trace, and what it appends are log lines
and queries: no goroutine is started and no dispatcher is called. -/
theorem loop_trace (s : Scheduler) (ctx : Context) (evs : List Event) (w : World) :
    ∃ new, (s.loop ctx evs w).2.trace = w.trace ++ new ∧
      dispatches new = [] ∧ spawned new = [] := by
  induction evs generalizing w with
  | nil => exact ⟨[], by simp [Scheduler.loop], rfl, rfl⟩
  | cons ev rest ih =>
    cases ev with
    | ticker now₁ io₁ now₂ io₂ =>
      by_cases hp : s.pollEvery ≤ 0
      · rw [loop_ticker_nil s ctx now₁ now₂ io₁ io₂ rest w hp]; exact ih w
      · cases hq : s.oneShotQuery w now₁ io₁ with
        | error err =>
          rw [loop_ticker_error s ctx now₁ now₂ io₁ io₂ rest w err hp hq]
          exact ⟨[.query "one_shot_reminders" "ocurrence" (s.cutoff now₁),
            .log .error "failed to get one-shot reminders"], by simp [World.emit], rfl, rfl⟩
        | ok rs =>
          rw [loop_ticker_ok s ctx now₁ now₂ io₁ io₂ rest w rs hp hq]
          obtain ⟨new, h, hd, hs⟩ := ih
            ((w.emit (.query "one_shot_reminders" "ocurrence" (s.cutoff now₁))).emit
              (.query "repeat_reminders" "ocurrence" (s.cutoff now₂)))
          refine ⟨.query "one_shot_reminders" "ocurrence" (s.cutoff now₁) ::
            .query "repeat_reminders" "ocurrence" (s.cutoff now₂) :: new, ?_, ?_, ?_⟩
          · rw [h]; simp [World.emit]
          · simpa [dispatches] using hd
          · simpa [spawned] using hs
    | ctxDone =>
      cases hd : ctx.doneAt with
      | none => rw [loop_done_none s ctx rest w hd]; exact ih w
      | some c =>
        rw [loop_done_some s ctx rest w c hd]
        exact ⟨[.log .info "context cancelled, shutting down scheduler"],
          by simp [World.emit], rfl, rfl⟩

/-- A run that is still waiting after the events `pre` goes on with the
events that follow from the world it has reached. -/
theorem loop_append (s : Scheduler) (ctx : Context) (pre more : List Event) (w : World)
    (h : (s.loop ctx pre w).1 = .blocked) :
    s.loop ctx (pre ++ more) w = s.loop ctx more (s.loop ctx pre w).2 := by
  induction pre generalizing w with
  | nil => rfl
  | cons ev rest ih =>
    rw [List.cons_append]
    cases ev with
    | ticker now₁ io₁ now₂ io₂ =>
      by_cases hp : s.pollEvery ≤ 0
      · rw [loop_ticker_nil s ctx now₁ now₂ io₁ io₂ _ w hp] at h ⊢
        rw [loop_ticker_nil s ctx now₁ now₂ io₁ io₂ _ w hp]
        exact ih w h
      · cases hq : s.oneShotQuery w now₁ io₁ with
        | error err =>
          rw [loop_ticker_error s ctx now₁ now₂ io₁ io₂ rest w err hp hq] at h
          simp at h
        | ok rs =>
          rw [loop_ticker_ok s ctx now₁ now₂ io₁ io₂ _ w rs hp hq] at h ⊢
          rw [loop_ticker_ok s ctx now₁ now₂ io₁ io₂ _ w rs hp hq]
          exact ih _ h
    | ctxDone =>
      cases hd : ctx.doneAt with
      | none =>
        rw [loop_done_none s ctx _ w hd] at h ⊢
        rw [loop_done_none s ctx _ w hd]
        exact ih w h
      | some c =>
        rw [loop_done_some s ctx rest w c hd] at h
        simp at h

theorem oneShotQuery_congr (s : Scheduler) (w w' : World) (now₁ : Time) (io₁ : Option Error)
    (h : w'.db = w.db) : s.oneShotQuery w' now₁ io₁ = s.oneShotQuery w now₁ io₁ := by
  rw [Scheduler.oneShotQuery, Scheduler.oneShotQuery, h]

/-- The ways the loop returns: it has taken the `ctx.Done()` case of a
cancelled context, or the one-shot query of a cycle has failed. -/
theorem loop_returned (s : Scheduler) (ctx : Context) (evs : List Event) (w : World)
    (r : Option Error) (h : (s.loop ctx evs w).1 = .returned r) :
    (r = some ctx.err ∧ ctx.doneAt.isSome = true ∧ Event.ctxDone ∈ evs) ∨
    (∃ n₁ i₁ n₂ i₂ e, Event.ticker n₁ i₁ n₂ i₂ ∈ evs ∧
      s.oneShotQuery w n₁ i₁ = .error e ∧ r = some e) := by
  induction evs generalizing w with
  | nil => simp [loop_nil] at h
  | cons ev rest ih =>
    have lift : ∀ w' : World, w'.db = w.db → (s.loop ctx rest w').1 = .returned r →
        (r = some ctx.err ∧ ctx.doneAt.isSome = true ∧ Event.ctxDone ∈ ev :: rest) ∨
        (∃ n₁ i₁ n₂ i₂ e, Event.ticker n₁ i₁ n₂ i₂ ∈ ev :: rest ∧
          s.oneShotQuery w n₁ i₁ = .error e ∧ r = some e) := by
      intro w' hdb h'
      rcases ih w' h' with ⟨h1, h2, h3⟩ | ⟨n₁, i₁, n₂, i₂, e, hm, hq, hr⟩
      · exact Or.inl ⟨h1, h2, List.mem_cons_of_mem _ h3⟩
      · refine Or.inr ⟨n₁, i₁, n₂, i₂, e, List.mem_cons_of_mem _ hm, ?_, hr⟩
        rw [← oneShotQuery_congr s w w' n₁ i₁ hdb]; exact hq
    cases ev with
    | ticker now₁ io₁ now₂ io₂ =>
      by_cases hp : s.pollEvery ≤ 0
      · rw [loop_ticker_nil s ctx now₁ now₂ io₁ io₂ rest w hp] at h
        exact lift w rfl h
      · cases hq : s.oneShotQuery w now₁ io₁ with
        | error err =>
          rw [loop_ticker_error s ctx now₁ now₂ io₁ io₂ rest w err hp hq] at h
          refine Or.inr ⟨now₁, io₁, now₂, io₂, err, List.mem_cons_self _ _, hq, ?_⟩
          simpa using h.symm
        | ok rs =>
          rw [loop_ticker_ok s ctx now₁ now₂ io₁ io₂ rest w rs hp hq] at h
          exact lift ((w.emit (.query "one_shot_reminders" "ocurrence" (s.cutoff now₁))).emit
            (.query "repeat_reminders" "ocurrence" (s.cutoff now₂))) rfl h
    | ctxDone =>
      cases hd : ctx.doneAt with
      | none =>
        rw [loop_done_none s ctx rest w hd] at h
        have key := lift w rfl h
        rw [hd] at key
        exact key
      | some c =>
        rw [loop_done_some s ctx rest w c hd] at h
        refine Or.inl ⟨?_, rfl, List.mem_cons_self _ _⟩
        simpa using h.symm

/-! ## C1: a failed store query -/

/-- C1, as stated, fails: with a context that is never cancelled, a tick whose
one-shot query fails makes `Run` return the error of the query. -/
theorem Run_store_error_counterexample :
    ((NewScheduler 1000000000).Run background
        [.ticker 0 (some (.db "connection refused")) 0 none] ⟨gormDB [] [], []⟩).1
      = .returned (some (.db "connection refused")) := by
  decide

/-- C1, amended: in a poll cycle whose one-shot query fails, `Run` logs the
failure and returns the error of the query, without sending the repeat query
of that cycle; and whenever `Run` returns, either it has observed the
cancellation of the context or the one-shot query of a cycle has failed. -/
theorem Run_returns_oneShot_query_error (s : Scheduler) (ctx : Context)
    (pre rest : List Event) (now₁ now₂ : Time) (io₁ io₂ : Option Error) (w : World)
    (err : Error) (hp : 0 < s.pollEvery) (hpre : (s.Run ctx pre w).1 = .blocked)
    (hq : s.oneShotQuery w now₁ io₁ = .error err) :
    s.Run ctx (pre ++ .ticker now₁ io₁ now₂ io₂ :: rest) w =
        (.returned (some err),
          ((s.Run ctx pre w).2.emit (.query "one_shot_reminders" "ocurrence" (s.cutoff now₁))).emit
            (.log .error "failed to get one-shot reminders")) ∧
    ∀ (evs : List Event) (r : Option Error), (s.Run ctx evs w).1 = .returned r →
      (r = some ctx.err ∧ ctx.doneAt.isSome = true ∧ Event.ctxDone ∈ evs) ∨
      (∃ n₁ i₁ n₂ i₂ e, Event.ticker n₁ i₁ n₂ i₂ ∈ evs ∧
        s.oneShotQuery w n₁ i₁ = .error e ∧ r = some e) := by
  constructor
  · unfold Scheduler.Run at hpre ⊢
    rw [loop_append s ctx pre _ _ hpre]
    refine loop_ticker_error s ctx now₁ now₂ io₁ io₂ rest _ err (not_le.mpr hp) ?_
    rw [oneShotQuery_congr s w _ now₁ io₁ (by rw [loop_db]; rfl)]
    exact hq
  · intro evs r h
    unfold Scheduler.Run at h
    rcases loop_returned s ctx evs _ r h with h1 | ⟨n₁, i₁, n₂, i₂, e, hm, hq', hr⟩
    · exact Or.inl h1
    · exact Or.inr ⟨n₁, i₁, n₂, i₂, e, hm, hq', hr⟩

/-- An instance of the amended C1: a second tick, after a cycle that went
well, at which the connection to the store fails. -/
theorem Run_returns_oneShot_query_error_witness :
    (0 < (NewScheduler 1000000000).pollEvery ∧
      ((NewScheduler 1000000000).Run background [.ticker 0 none 1 none]
        ⟨ocurrenceDB [] [], []⟩).1 = .blocked ∧
      (NewScheduler 1000000000).oneShotQuery ⟨ocurrenceDB [] [], []⟩ 1000000000
        (some (.db "connection refused")) = .error (.db "connection refused")) ∧
    ((NewScheduler 1000000000).Run background
        ([.ticker 0 none 1 none] ++
          .ticker 1000000000 (some (.db "connection refused")) 1000000001 none :: [])
        ⟨ocurrenceDB [] [], []⟩).1 = .returned (some (.db "connection refused")) :=
  ⟨⟨by decide, by decide, rfl⟩,
    congrArg Prod.fst (Run_returns_oneShot_query_error (NewScheduler 1000000000)
      background [.ticker 0 none 1 none] [] 1000000000 1000000001
      (some (.db "connection refused")) none ⟨ocurrenceDB [] [], []⟩
      (.db "connection refused") (by decide) (by decide) rfl).1⟩

/-! ## C2: cancellation -/

/-- C2: when the context is cancelled and the loop takes the `ctx.Done()`
case, `Run` returns the error of the context, which is not nil, after
logging the shutdown; no store query is sent after the ones sent before. -/
theorem Run_returns_ctx_err (s : Scheduler) (ctx : Context) (pre rest : List Event)
    (w : World) (c : Time) (hd : ctx.doneAt = some c)
    (hpre : (s.Run ctx pre w).1 = .blocked) :
    s.Run ctx (pre ++ .ctxDone :: rest) w =
        (.returned (some ctx.err),
          (s.Run ctx pre w).2.emit (.log .info "context cancelled, shutting down scheduler")) ∧
    queries (s.Run ctx (pre ++ .ctxDone :: rest) w).2.trace =
      queries (s.Run ctx pre w).2.trace := by
  have h : s.Run ctx (pre ++ .ctxDone :: rest) w =
      (.returned (some ctx.err),
        (s.Run ctx pre w).2.emit (.log .info "context cancelled, shutting down scheduler")) := by
    unfold Scheduler.Run at hpre ⊢
    rw [loop_append s ctx pre _ _ hpre]
    exact loop_done_some s ctx rest _ c hd
  refine ⟨h, ?_⟩
  rw [h]
  simp [World.emit, queries]

/-- An instance of C2: a context cancelled at instant 5, observed after one
poll cycle; the ticks that follow are not served. -/
theorem Run_returns_ctx_err_witness :
    ((⟨some 5, .Canceled⟩ : Context).doneAt = some 5 ∧
      ((NewScheduler 1000000000).Run ⟨some 5, .Canceled⟩ [.ticker 0 none 1 none]
        ⟨ocurrenceDB [] [], []⟩).1 = .blocked) ∧
    ((NewScheduler 1000000000).Run ⟨some 5, .Canceled⟩
        ([.ticker 0 none 1 none] ++ .ctxDone :: [.ticker 7 none 8 none])
        ⟨ocurrenceDB [] [], []⟩).1 = .returned (some .Canceled) :=
  ⟨⟨rfl, by decide⟩,
    congrArg Prod.fst (Run_returns_ctx_err (NewScheduler 1000000000) ⟨some 5, .Canceled⟩
      [.ticker 0 none 1 none] [.ticker 7 none 8 none] ⟨ocurrenceDB [] [], []⟩ 5 rfl
      (by decide)).1⟩

/-! ## The goroutine of ScheduleSend -/

/-- Whatever case its `select` takes, the goroutine leaves the store as it
is. -/
theorem goroutine_db (r : OneShotReminder) (ctx : Context) (f : MessageDispatcherFunc)
    (start : Time) (race : Bool) (w : World) :
    (r.goroutine ctx f start race w).db = w.db := by
  unfold OneShotReminder.goroutine
  split <;> rfl

/-- The goroutine appends at most a warning to the trace. -/
theorem goroutine_trace (r : OneShotReminder) (ctx : Context) (f : MessageDispatcherFunc)
    (start : Time) (race : Bool) (w : World) :
    ∃ new, (r.goroutine ctx f start race w).trace = w.trace ++ new ∧
      dispatches new = [] ∧ spawned new = [] := by
  unfold OneShotReminder.goroutine
  split
  · exact ⟨[.log .warn "context cancelled before one-shot reminder could be sent"],
      rfl, rfl, rfl⟩
  · exact ⟨[], by simp, rfl, rfl⟩

/-- A call of `ScheduleSend` and the run of its goroutine add the start of
the goroutine and log lines to the trace, and no call of the dispatcher. -/
theorem send_trace (r : OneShotReminder) (ctx : Context) (f : MessageDispatcherFunc)
    (start : Time) (race : Bool) (w : World) :
    ∃ new, (r.send ctx f start race w).trace = w.trace ++ new ∧ dispatches new = [] := by
  obtain ⟨new, h, hd, _⟩ := goroutine_trace r ctx f start race (r.ScheduleSend ctx f w)
  refine ⟨.go r :: new, ?_, ?_⟩
  · rw [OneShotReminder.send, h]
    simp [OneShotReminder.ScheduleSend, World.emit]
  · simpa [dispatches] using hd

theorem send_db (r : OneShotReminder) (ctx : Context) (f : MessageDispatcherFunc)
    (start : Time) (race : Bool) (w : World) :
    (r.send ctx f start race w).db = w.db := by
  rw [OneShotReminder.send, goroutine_db]
  rfl

/-- A list of effects without dispatcher calls has no premature one. -/
theorem all_not_premature (es : List Effect) (m : Message) (activation : Time)
    (h : dispatches es = []) :
    (es.all fun e => !e.premature m activation) = true := by
  induction es with
  | nil => rfl
  | cons e rest ih =>
    cases e with
    | dispatch t m' => simp [dispatches] at h
    | log l msg =>
      have h' : dispatches rest = [] := by simpa [dispatches] using h
      simpa [Effect.premature] using ih h'
    | query tb c a =>
      have h' : dispatches rest = [] := by simpa [dispatches] using h
      simpa [Effect.premature] using ih h'
    | go r =>
      have h' : dispatches rest = [] := by simpa [dispatches] using h
      simpa [Effect.premature] using ih h'

/-- The timer of the goroutine is set for the occurrence of the reminder,
when that lies ahead by no more than the largest duration. -/
theorem fireAt_eq_Occurrence (r : OneShotReminder) (start : Time)
    (h₁ : start ≤ r.Occurrence) (h₂ : r.Occurrence - start ≤ maxDuration) :
    r.fireAt start = r.Occurrence := by
  unfold OneShotReminder.fireAt timeAdd timeUntil timeSub
  unfold maxDuration Duration at h₂
  unfold maxDuration minDuration
  unfold Time Duration at *
  have e1 : min (2 ^ 63 - 1 : Int) (r.Occurrence - start) = r.Occurrence - start :=
    min_eq_right h₂
  have e2 : max (-(2 ^ 63) : Int) (r.Occurrence - start) = r.Occurrence - start :=
    max_eq_right (by norm_num; omega)
  have e3 : max (0 : Int) (r.Occurrence - start) = r.Occurrence - start :=
    max_eq_right (by omega)
  rw [e1, e2, e3]
  omega

/-! ## C3: the dispatcher is to be called at the occurrence -/

/-- C3 at a concrete input: for a reminder due at five seconds, started at
instant 0 under a context that is never cancelled, `ScheduleSend` and its
goroutine leave a trace that holds the start of the goroutine and nothing
else: the recording dispatcher handed to it has not been called. -/
theorem ScheduleSend_sample_never_dispatches :
    (sampleOneShot.send background (recordingDispatcher 5000000000) 0 false
        ⟨gormDB [sampleOneShot] [], []⟩).trace = [.go sampleOneShot] ∧
    dispatches (sampleOneShot.send background (recordingDispatcher 5000000000) 0 false
        ⟨gormDB [sampleOneShot] [], []⟩).trace = [] := by
  constructor <;> decide

/-! ## C6: no premature dispatch -/

/-- C6: among the effects of a call of `ScheduleSend` with its goroutine, and
among the effects of any run of `Run`, there is no call of a dispatcher
with the message of a reminder at an instant before the activation instant of
that reminder. -/
theorem no_premature_dispatch (r : OneShotReminder) (ctx : Context)
    (f : MessageDispatcherFunc) (start : Time) (race : Bool) (s : Scheduler)
    (evs : List Event) (m : Message) (activation : Time) (w : World) :
    ((w.effectsSince (r.send ctx f start race w)).all
        fun e => !e.premature r.Message r.Occurrence) = true ∧
    ((w.effectsSince (s.Run ctx evs w).2).all
        fun e => !e.premature m activation) = true := by
  constructor
  · obtain ⟨new, h, hd⟩ := send_trace r ctx f start race w
    rw [effectsSince_of_append w _ new h]
    exact all_not_premature new _ _ hd
  · obtain ⟨new, h, hd, _⟩ := loop_trace s ctx evs (w.emit (.log .info "starting scheduler"))
    have h' : (s.Run ctx evs w).2.trace = w.trace ++ (.log .info "starting scheduler" :: new) := by
      rw [Scheduler.Run, h]; simp [World.emit]
    rw [effectsSince_of_append w _ _ h']
    exact all_not_premature _ _ _ (by simpa [dispatches] using hd)

/-! ## C7: cancellation while the goroutine waits -/

/-- C7: if the context is cancelled at an instant `c` at which the goroutine
started by `ScheduleSend` is still waiting for `r.Occurrence`, the goroutine
logs a warning and ends: the dispatcher is not called and the store, so the
record of `r` in it, is unchanged. -/
theorem send_cancelled_while_waiting (r : OneShotReminder) (ctx : Context)
    (f : MessageDispatcherFunc) (start c : Time) (race : Bool) (w : World)
    (hd : ctx.doneAt = some c) (hs : start ≤ c) (hc : c < r.Occurrence)
    (hr : r.Occurrence - start ≤ maxDuration) :
    r.send ctx f start race w =
        (w.emit (.go r)).emit
          (.log .warn "context cancelled before one-shot reminder could be sent") ∧
    dispatches (w.effectsSince (r.send ctx f start race w)) = [] ∧
    (r.send ctx f start race w).db = w.db ∧
    (r ∈ w.db.oneShotReminders.rows →
      r ∈ (r.send ctx f start race w).db.oneShotReminders.rows) := by
  have hfire : r.fireAt start = r.Occurrence :=
    fireAt_eq_Occurrence r start (le_trans hs (le_of_lt hc)) hr
  have hsel : r.selected ctx start race = .ctxDone := by
    unfold OneShotReminder.selected
    rw [hd, hfire]
    simp only
    rw [if_pos (by rw [max_eq_left hs]; exact hc)]
  have hsend : r.send ctx f start race w =
      (w.emit (.go r)).emit
        (.log .warn "context cancelled before one-shot reminder could be sent") := by
    rw [OneShotReminder.send, OneShotReminder.goroutine, hsel]
    rfl
  refine ⟨hsend, ?_, send_db r ctx f start race w, ?_⟩
  · obtain ⟨new, h, hdis⟩ := send_trace r ctx f start race w
    rw [effectsSince_of_append w _ new h]
    exact hdis
  · intro hmem
    rw [send_db]
    exact hmem

/-- An instance of C7: the reminder is due at five seconds, its goroutine
starts at instant 0 and the context is cancelled at two seconds. -/
theorem send_cancelled_while_waiting_witness :
    ((⟨some 2000000000, .Canceled⟩ : Context).doneAt = some 2000000000 ∧
      (0 : Time) ≤ 2000000000 ∧ (2000000000 : Time) < sampleOneShot.Occurrence ∧
      sampleOneShot.Occurrence - 0 ≤ maxDuration) ∧
    dispatches ((⟨gormDB [sampleOneShot] [], []⟩ : World).effectsSince
      (sampleOneShot.send ⟨some 2000000000, .Canceled⟩ (recordingDispatcher 2000000000) 0 true
        ⟨gormDB [sampleOneShot] [], []⟩)) = [] :=
  ⟨⟨rfl, by decide, by decide, by decide⟩,
    (send_cancelled_while_waiting sampleOneShot ⟨some 2000000000, .Canceled⟩
      (recordingDispatcher 2000000000) 0 2000000000 true ⟨gormDB [sampleOneShot] [], []⟩
      rfl (by decide) (by decide) (by decide)).2.1⟩

/-! ## The query of a poll cycle -/

/-- Without overflow the window is the polling interval plus a millisecond. -/
theorem window_eq (s : Scheduler) (hp : 0 ≤ s.pollEvery)
    (hov : s.pollEvery + Millisecond ≤ maxDuration) :
    s.window = s.pollEvery + 1000000 := by
  unfold Scheduler.window durationAdd wrapInt64
  unfold Millisecond maxDuration at hov
  unfold Millisecond
  unfold Duration at *
  omega

/-- A row that is not soft-deleted and whose column value is below the
argument is in the result of `Find`. -/
theorem mem_Find {α : Type} (t : Table α) (deletedAt : α → Option Time) (column : String)
    (col : α → Time) (arg : Time) (r : α) (hcol : t.column column = some col)
    (hr : r ∈ t.rows) (hdel : deletedAt r = none) (hlt : col r < arg) :
    ∃ rs, t.Find deletedAt column arg none = .ok rs ∧ r ∈ rs := by
  refine ⟨t.rows.filter fun r => (deletedAt r).isNone && whereLt (col r) arg, ?_, ?_⟩
  · simp only [Table.Find, hcol]
  · rw [List.mem_filter]
    exact ⟨hr, by simp [hdel, whereLt, hlt]⟩

/-- A row fetched with one argument is fetched with any larger one. -/
theorem Find_mono {α : Type} (t : Table α) (deletedAt : α → Option Time) (column : String)
    (arg arg' : Time) (hle : arg ≤ arg') (rs : List α) (r : α)
    (h : t.Find deletedAt column arg none = .ok rs) (hr : r ∈ rs) :
    ∃ rs', t.Find deletedAt column arg' none = .ok rs' ∧ r ∈ rs' := by
  cases hcol : t.column column with
  | none => simp [Table.Find, hcol] at h
  | some col =>
    simp only [Table.Find, hcol, Except.ok.injEq] at h
    subst h
    rw [List.mem_filter] at hr
    obtain ⟨hmem, hcond⟩ := hr
    simp only [Bool.and_eq_true, whereLt, decide_eq_true_eq] at hcond
    refine mem_Find t deletedAt column col arg' r hcol hmem ?_ (lt_of_lt_of_le hcond.2 hle)
    cases hd : deletedAt r with
    | none => rfl
    | some d => simp [hd] at hcond

/-! ## C4: what a poll cycle fetches -/

/-- C4 at a concrete input: the store holds, in the tables gorm derives from
the structs, a one-shot reminder and a repeat reminder due at five seconds;
the scheduler polls every second and ticks at 4.5 seconds.  Both activation
instants are below the cutoff, yet both queries fail, as neither table has a
column `ocurrence`, and `Run` returns the error of the first. -/
theorem Run_gorm_store_fetches_nothing :
    (sampleOneShot.Occurrence < (NewScheduler 1000000000).cutoff 4500000000 ∧
      sampleRepeat.NextOcurrence < (NewScheduler 1000000000).cutoff 4500000000) ∧
    (NewScheduler 1000000000).oneShotQuery ⟨gormDB [sampleOneShot] [sampleRepeat], []⟩
        4500000000 none = .error (.db "no such column: ocurrence") ∧
    (NewScheduler 1000000000).repeatQuery ⟨gormDB [sampleOneShot] [sampleRepeat], []⟩
        4500000000 none = .error (.db "no such column: ocurrence") ∧
    ((NewScheduler 1000000000).Run background [.ticker 4500000000 none 4500000000 none]
        ⟨gormDB [sampleOneShot] [sampleRepeat], []⟩).1
      = .returned (some (.db "no such column: ocurrence")) := by
  refine ⟨⟨by decide, by decide⟩, rfl, rfl, by decide⟩

/-! ## C5: the window reaches the next tick -/

/-- C5: for a polling interval that is not negative and to which a
millisecond can be added without overflow, an activation instant at or
before the next tick, `now + pollEvery`, satisfies the condition of the
query sent at `now`; so a row with that activation instant in a column named
as the query names it, and not soft-deleted, is in the batch the query
returns. -/
theorem due_by_next_tick_satisfies_query (s : Scheduler) (now activation : Time)
    (hp : 0 ≤ s.pollEvery) (hov : s.pollEvery + Millisecond ≤ maxDuration)
    (hdue : activation ≤ now + s.pollEvery) :
    whereLt activation (s.cutoff now) = true ∧
    ∀ {α : Type} (t : Table α) (deletedAt : α → Option Time) (col : α → Time) (r : α),
      t.column "ocurrence" = some col → r ∈ t.rows → deletedAt r = none →
      col r = activation →
      ∃ rs, t.Find deletedAt "ocurrence" (s.cutoff now) none = .ok rs ∧ r ∈ rs := by
  have hlt : activation < s.cutoff now := by
    rw [Scheduler.cutoff, timeAdd, window_eq s hp hov]
    unfold Time Duration at *
    omega
  refine ⟨by simp [whereLt, hlt], ?_⟩
  intro α t deletedAt col r hcol hr hdel hact
  exact mem_Find t deletedAt "ocurrence" col (s.cutoff now) r hcol hr hdel (by rw [hact]; exact hlt)

/-- An instance of C5: polling every second at 4 seconds, a reminder due
exactly at the next tick, at five seconds. -/
theorem due_by_next_tick_satisfies_query_witness :
    ((0 : Duration) ≤ (NewScheduler 1000000000).pollEvery ∧
      (NewScheduler 1000000000).pollEvery + Millisecond ≤ maxDuration ∧
      sampleOneShot.Occurrence ≤ 4000000000 + (NewScheduler 1000000000).pollEvery) ∧
    whereLt sampleOneShot.Occurrence ((NewScheduler 1000000000).cutoff 4000000000) = true :=
  ⟨⟨by decide, by decide, by decide⟩,
    (due_by_next_tick_satisfies_query (NewScheduler 1000000000) 4000000000
      sampleOneShot.Occurrence (by decide) (by decide) (by decide)).1⟩

/-! ## C8: what a poll cycle does with its batch -/

/-- The effects of `Run`: the line logged at the start, then what the loop
appends, log lines and queries. -/
theorem Run_trace (s : Scheduler) (ctx : Context) (evs : List Event) (w : World) :
    ∃ new, (s.Run ctx evs w).2.trace = w.trace ++ new ∧
      dispatches new = [] ∧ spawned new = [] := by
  obtain ⟨new, h, hd, hs⟩ := loop_trace s ctx evs (w.emit (.log .info "starting scheduler"))
  refine ⟨.log .info "starting scheduler" :: new, ?_, ?_, ?_⟩
  · rw [Scheduler.Run, h]; simp [World.emit]
  · simpa [dispatches] using hd
  · simpa [spawned] using hs

theorem Run_db (s : Scheduler) (ctx : Context) (evs : List Event) (w : World) :
    (s.Run ctx evs w).2.db = w.db := by
  rw [Scheduler.Run, loop_db]
  rfl

/-- C8, as stated, fails: the store names its column as the query does and
holds a reminder due at five seconds; at the tick at 4.5 seconds the query
succeeds with that reminder as its batch, the cycle completes, and no
goroutine has been started by `ScheduleSend`. -/
theorem Run_batch_not_scheduled_counterexample :
    (NewScheduler 1000000000).oneShotQuery ⟨ocurrenceDB [sampleOneShot] [], []⟩
        4500000000 none = .ok [sampleOneShot] ∧
    ((NewScheduler 1000000000).Run background [.ticker 4500000000 none 4500000001 none]
        ⟨ocurrenceDB [sampleOneShot] [], []⟩).1 = .blocked ∧
    spawned ((NewScheduler 1000000000).Run background
        [.ticker 4500000000 none 4500000001 none]
        ⟨ocurrenceDB [sampleOneShot] [], []⟩).2.trace = [] := by
  refine ⟨rfl, by decide, by decide⟩

/-- C8, amended: in every run of `Run`, whatever the batches its queries
return, no dispatch task is scheduled: among the effects of `Run` there is no
goroutine started by `ScheduleSend`. -/
theorem Run_schedules_nothing (s : Scheduler) (ctx : Context) (evs : List Event)
    (w : World) : spawned (w.effectsSince (s.Run ctx evs w).2) = [] := by
  obtain ⟨new, h, _, hs⟩ := Run_trace s ctx evs w
  rw [effectsSince_of_append w _ new h]
  exact hs

/-! ## C9: at-least-once -/

/-- C9: after any run of `Run`, and after any call of `ScheduleSend` with
its goroutine, every one-shot record of the store is still there with all its
fields, and so is every repeat record, its next occurrence included, unless a
dispatcher has been called with the message of that reminder. -/
theorem removed_only_after_dispatch (s : Scheduler) (ctx : Context) (evs : List Event)
    (r : OneShotReminder) (f : MessageDispatcherFunc) (start : Time) (race : Bool)
    (w : World) :
    (∀ x ∈ w.db.oneShotReminders.rows,
      x ∈ (s.Run ctx evs w).2.db.oneShotReminders.rows ∨
        ∃ t, (t, x.Message) ∈ dispatches (w.effectsSince (s.Run ctx evs w).2)) ∧
    (∀ y ∈ w.db.repeatReminders.rows,
      y ∈ (s.Run ctx evs w).2.db.repeatReminders.rows ∨
        ∃ t, (t, y.Message) ∈ dispatches (w.effectsSince (s.Run ctx evs w).2)) ∧
    (∀ x ∈ w.db.oneShotReminders.rows,
      x ∈ (r.send ctx f start race w).db.oneShotReminders.rows ∨
        ∃ t, (t, x.Message) ∈ dispatches (w.effectsSince (r.send ctx f start race w))) ∧
    (∀ y ∈ w.db.repeatReminders.rows,
      y ∈ (r.send ctx f start race w).db.repeatReminders.rows ∨
        ∃ t, (t, y.Message) ∈ dispatches (w.effectsSince (r.send ctx f start race w))) := by
  refine ⟨fun x hx => Or.inl ?_, fun y hy => Or.inl ?_, fun x hx => Or.inl ?_,
    fun y hy => Or.inl ?_⟩
  · rw [Run_db]; exact hx
  · rw [Run_db]; exact hy
  · rw [send_db]; exact hx
  · rw [send_db]; exact hy

/-! ## C10: the scheduler only reads the store -/

/-- C10: `Run` and `ScheduleSend` with its goroutine leave the store as
they found it; so a one-shot or repeat reminder fetched by the query of a
cycle at instant `now` is fetched again by the query of a cycle at any later
instant `now'` of the same run, when that query reaches the store. -/
theorem store_only_read (s : Scheduler) (ctx : Context) (evs : List Event)
    (r : OneShotReminder) (f : MessageDispatcherFunc) (start : Time) (race : Bool)
    (w : World) (now now' : Time) (hle : now ≤ now') :
    (s.Run ctx evs w).2.db = w.db ∧
    (r.send ctx f start race w).db = w.db ∧
    (∀ (x : OneShotReminder) (rs : List OneShotReminder),
      s.oneShotQuery w now none = .ok rs → x ∈ rs →
      ∃ rs', s.oneShotQuery (s.Run ctx evs w).2 now' none = .ok rs' ∧ x ∈ rs') ∧
    (∀ (y : RepeatReminder) (rs : List RepeatReminder),
      s.repeatQuery w now none = .ok rs → y ∈ rs →
      ∃ rs', s.repeatQuery (s.Run ctx evs w).2 now' none = .ok rs' ∧ y ∈ rs') := by
  have hcut : s.cutoff now ≤ s.cutoff now' := by
    unfold Scheduler.cutoff timeAdd
    exact add_le_add_right hle _
  refine ⟨Run_db s ctx evs w, send_db r ctx f start race w, ?_, ?_⟩
  · intro x rs hq hx
    unfold Scheduler.oneShotQuery at hq ⊢
    rw [Run_db]
    exact Find_mono _ _ _ _ _ hcut rs x hq hx
  · intro y rs hq hy
    unfold Scheduler.repeatQuery at hq ⊢
    rw [Run_db]
    exact Find_mono _ _ _ _ _ hcut rs y hq hy

/-- An instance of C10: a reminder due at five seconds, fetched at 4.5
seconds, is fetched again a second later, after the first cycle. -/
theorem store_only_read_witness :
    ((4500000000 : Time) ≤ 5500000000) ∧
    ∃ rs', (NewScheduler 1000000000).oneShotQuery
        ((NewScheduler 1000000000).Run background [.ticker 4500000000 none 4500000001 none]
          ⟨ocurrenceDB [sampleOneShot] [sampleRepeat], []⟩).2 5500000000 none = .ok rs' ∧
      sampleOneShot ∈ rs' :=
  ⟨by decide,
    (store_only_read (NewScheduler 1000000000) background
      [.ticker 4500000000 none 4500000001 none] sampleOneShot (recordingDispatcher 0) 0 false
      ⟨ocurrenceDB [sampleOneShot] [sampleRepeat], []⟩ 4500000000 5500000000
      (by decide)).2.2.1 sampleOneShot [sampleOneShot] rfl (List.mem_singleton.mpr rfl)⟩

end DiscordReminderBot
